import Mathlib

/-!
Shallow embedding of the knobo client-side service layer:
`constants.js` (checkErrorCode, APIKeyService), `upload_url_service.js`
(UploadURLService), the chat service (ChatService) and the small pieces of
view logic the properties refer to (`upload_url.js` button handler,
`api_key_view.js` keyObfuscatedFormat).

Every operation is a promise chain around one `fetch`.  We model one run of
such a chain as a pure function from the service's state, the operation's
arguments and the outcome of the `fetch` + `response.json()` step to the new
state together with a transcript: the events dispatched through
`dispatchEvent` (in dispatch order), the `alert` calls, the requests issued,
the `check_status` calls started, the timers scheduled by `setTimeout`, and
the final settlement of the chain (resolved, or rejected with an error).
-/

namespace Knobo

/-- The errors thrown by this code base.  In the source every one of them is a
JS `Error` built from a template string; each constructor records exactly the
data the source interpolates into that string. -/
inductive JSError where
  /-- checkErrorCode's `new Error(error_code: message)`. -/
  | domainError (code msg : String)
  /-- the non-JSON-body case: `new Error(status: Server error)`. -/
  | serverError (status : Nat)
  /-- an `Invalid ... response format` error, carrying the literal text. -/
  | invalidFormat (msg : String)
  /-- any other rejection reason coming from the host (network failure). -/
  | other (msg : String)
deriving DecidableEq, Repr

/-- Names of the events this code dispatches (`new Event(name)`). -/
inductive EventName where
  | fetch_start
  | fetch_complete
  | render_uploads
  | userport_post_message_start
  | userport_post_message_end
  | api_key_fetch_start
  | api_key_fetch_complete
  | api_key_render_creation
  | api_key_render_existing
deriving DecidableEq, Repr

/-- A dispatched event.  A host `Event` object built by `new Event(name)` has
a name and no data payload; `payload` records an attached datum, so that
"the event carries X" is expressible (it never holds for `mkEvent`). -/
structure Event where
  name : EventName
  payload : Option String
deriving DecidableEq, Repr

/-- `new Event(n)`: an event with the given name and no payload. -/
def mkEvent (n : EventName) : Event := { name := n, payload := none }

/-- A request handed to `fetch`: HTTP method, endpoint path (host omitted,
query string included as in the source template), and the body payload for
POST requests (the raw value the source passes through `JSON.stringify`). -/
structure RequestDesc where
  method : String
  path : String
  payload : Option String
deriving DecidableEq, Repr

/-- The part of a decoded JSON body that `checkErrorCode` inspects: the
`error_code` and `message` fields, `none` when the key is absent. -/
structure ErrorEnvelope where
  error_code : Option String
  message : Option String
deriving DecidableEq, Repr

/-- constants.js `checkErrorCode(data)`: return silently when `error_code` is
absent; throw `Error(error_code: message)` when both `error_code` and
`message` are present; fall through (return undefined) when `error_code` is
present but `message` is not.  `UploadURLService.checkErrorCode` is a
verbatim copy of this function and is modelled by this same definition. -/
def checkErrorCode (data : ErrorEnvelope) : Except JSError Unit :=
  match data.error_code with
  | none => .ok ()
  | some code =>
    match data.message with
    | some msg => .error (.domainError code msg)
    | none => .ok ()

/-- Outcome of the `fetch(...)` + `response.json()` prefix of every chain:
either a decoded body, or `response.json()` rejected (non-JSON body, with the
response's HTTP status), or `fetch` itself rejected. -/
inductive FetchResult (β : Type) where
  | body (data : β)
  | nonJSON (status : Nat)
  | reject (e : JSError)
deriving DecidableEq, Repr

/-- Result of one run of a service operation over state type `σ`: the new
state plus the transcript of observable effects. -/
structure OpResult (σ : Type) where
  state : σ
  events : List Event
  alerts : List String
  requests : List RequestDesc
  checksStarted : List Nat
  timers : List (Nat × Nat)
  outcome : Except JSError Unit

/-- Number of events named `n` in a transcript. -/
def countEv (n : EventName) (evs : List Event) : Nat :=
  (evs.filter (fun ev => ev.name == n)).length

/-- JS `Array.prototype.findIndex`: index of the first element satisfying the
predicate, `-1` when there is none. -/
def jsFindIndex {α : Type} (p : α → Bool) (l : List α) : Int :=
  match l.findIdx? p with
  | some i => (i : Int)
  | none => -1

/-- An upload record as decoded from the server (and as listed in
`this.uploads`): the `error_code` / `message` fields that `checkErrorCode`
inspects, and the `id`, `url`, `status` fields the service reads. -/
structure Upload where
  error_code : Option String
  message : Option String
  id : Nat
  url : String
  status : String
deriving DecidableEq, Repr

/-- The envelope part of an upload body. -/
def Upload.envelope (u : Upload) : ErrorEnvelope :=
  { error_code := u.error_code, message := u.message }

/-- Body of a LIST response: error envelope plus the `uploads` field
(`none` models the `"uploads" in data` check failing). -/
structure ListBody where
  error_code : Option String
  message : Option String
  uploads : Option (List Upload)
deriving DecidableEq, Repr

/-- The envelope part of a LIST body. -/
def ListBody.envelope (d : ListBody) : ErrorEnvelope :=
  { error_code := d.error_code, message := d.message }

namespace UploadURLService

def URL_ENDPOINT : String := "/api/v1/url"

def URLS_ENDPOINT : String := "/api/v1/urls"

/-- `UploadURLService.upload_url(web_page_url)`: dispatch `fetch_start`, POST
the URL; on a decoded body dispatch `fetch_complete`, run `checkErrorCode`,
push the upload, dispatch `render_uploads` and start `check_status` for the
new upload's id; every error lands in the catch handler, which dispatches
`fetch_complete` (again, when the body was already decoded) and rethrows. -/
def upload_url (uploads : List Upload) (web_page_url : String)
    (fr : FetchResult Upload) : OpResult (List Upload) :=
  let req : RequestDesc :=
    { method := "POST", path := URL_ENDPOINT, payload := some web_page_url }
  match fr with
  | .reject e =>
    { state := uploads,
      events := [mkEvent .fetch_start, mkEvent .fetch_complete],
      alerts := [], requests := [req], checksStarted := [], timers := [],
      outcome := .error e }
  | .nonJSON status =>
    { state := uploads,
      events := [mkEvent .fetch_start, mkEvent .fetch_complete],
      alerts := [], requests := [req], checksStarted := [], timers := [],
      outcome := .error (.serverError status) }
  | .body upload =>
    match checkErrorCode upload.envelope with
    | .error e =>
      { state := uploads,
        events := [mkEvent .fetch_start, mkEvent .fetch_complete,
                   mkEvent .fetch_complete],
        alerts := [], requests := [req], checksStarted := [], timers := [],
        outcome := .error e }
    | .ok _ =>
      { state := uploads ++ [upload],
        events := [mkEvent .fetch_start, mkEvent .fetch_complete,
                   mkEvent .render_uploads],
        alerts := [], requests := [req], checksStarted := [upload.id],
        timers := [], outcome := .ok () }

/-- `UploadURLService.check_status(upload_id)`: GET the single-record status
endpoint (no `fetch_start` / `fetch_complete` bracket anywhere in this
method).  On a decoded body run `checkErrorCode`; if the status is not
`IN_PROGRESS`, find the record by id — on a miss the source alerts and then
still executes `this.uploads[-1] = upload`, which adds a stray property and
leaves the array's elements unchanged — write the record in place and
dispatch `render_uploads`; otherwise schedule the same check again after
20000 ms.  The catch handler only rethrows. -/
def check_status (uploads : List Upload) (upload_id : Nat)
    (fr : FetchResult Upload) : OpResult (List Upload) :=
  let req : RequestDesc :=
    { method := "GET", path := s!"{URL_ENDPOINT}?id={upload_id}",
      payload := none }
  match fr with
  | .reject e =>
    { state := uploads, events := [], alerts := [], requests := [req],
      checksStarted := [], timers := [], outcome := .error e }
  | .nonJSON status =>
    { state := uploads, events := [], alerts := [], requests := [req],
      checksStarted := [], timers := [], outcome := .error (.serverError status) }
  | .body upload =>
    match checkErrorCode upload.envelope with
    | .error e =>
      { state := uploads, events := [], alerts := [], requests := [req],
        checksStarted := [], timers := [], outcome := .error e }
    | .ok _ =>
      if upload.status != "IN_PROGRESS" then
        let index := jsFindIndex (fun existingUpload => existingUpload.id == upload.id) uploads
        if index == -1 then
          let uid := upload.id
          { state := uploads, events := [mkEvent .render_uploads],
            alerts := [s!"Uploaded URL {uid} not found in existing uploads"],
            requests := [req], checksStarted := [], timers := [],
            outcome := .ok () }
        else
          { state := uploads.set index.toNat upload,
            events := [mkEvent .render_uploads],
            alerts := [], requests := [req], checksStarted := [], timers := [],
            outcome := .ok () }
      else
        { state := uploads, events := [], alerts := [], requests := [req],
          checksStarted := [], timers := [(20000, upload_id)],
          outcome := .ok () }

/-- `UploadURLService.list_urls()`: dispatch `fetch_start`, GET the
collection; on a decoded body dispatch `fetch_complete`, run
`checkErrorCode`, require the `uploads` field, replace `this.uploads`
wholesale, start `check_status` for every record in order, and dispatch
`render_uploads`; every error lands in the catch handler, which dispatches
`fetch_complete` and rethrows. -/
def list_urls (uploads : List Upload) (fr : FetchResult ListBody) :
    OpResult (List Upload) :=
  let req : RequestDesc := { method := "GET", path := URLS_ENDPOINT, payload := none }
  match fr with
  | .reject e =>
    { state := uploads,
      events := [mkEvent .fetch_start, mkEvent .fetch_complete],
      alerts := [], requests := [req], checksStarted := [], timers := [],
      outcome := .error e }
  | .nonJSON status =>
    { state := uploads,
      events := [mkEvent .fetch_start, mkEvent .fetch_complete],
      alerts := [], requests := [req], checksStarted := [], timers := [],
      outcome := .error (.serverError status) }
  | .body data =>
    match checkErrorCode data.envelope with
    | .error e =>
      { state := uploads,
        events := [mkEvent .fetch_start, mkEvent .fetch_complete,
                   mkEvent .fetch_complete],
        alerts := [], requests := [req], checksStarted := [], timers := [],
        outcome := .error e }
    | .ok _ =>
      match data.uploads with
      | none =>
        { state := uploads,
          events := [mkEvent .fetch_start, mkEvent .fetch_complete,
                     mkEvent .fetch_complete],
          alerts := [], requests := [req], checksStarted := [], timers := [],
          outcome := .error (.invalidFormat "Invalid Uploads response format") }
      | some us =>
        { state := us,
          events := [mkEvent .fetch_start, mkEvent .fetch_complete,
                     mkEvent .render_uploads],
          alerts := [], requests := [req],
          checksStarted := us.map (fun u => u.id), timers := [],
          outcome := .ok () }

/-- `UploadURLService.delete_url(upload)`: dispatch `fetch_start`, DELETE by
id; on a decoded body dispatch `fetch_complete`, run `checkErrorCode`, remove
the element (`indexOf` + `splice(index, 1)`; `indexOf` compares by object
identity, modelled as first structural match) and dispatch `render_uploads`;
every error lands in the catch handler, which dispatches `fetch_complete`
and rethrows. -/
def delete_url (uploads : List Upload) (upload : Upload)
    (fr : FetchResult ErrorEnvelope) : OpResult (List Upload) :=
  let uid := upload.id
  let req : RequestDesc :=
    { method := "DELETE", path := s!"{URL_ENDPOINT}?id={uid}", payload := none }
  match fr with
  | .reject e =>
    { state := uploads,
      events := [mkEvent .fetch_start, mkEvent .fetch_complete],
      alerts := [], requests := [req], checksStarted := [], timers := [],
      outcome := .error e }
  | .nonJSON status =>
    { state := uploads,
      events := [mkEvent .fetch_start, mkEvent .fetch_complete],
      alerts := [], requests := [req], checksStarted := [], timers := [],
      outcome := .error (.serverError status) }
  | .body data =>
    match checkErrorCode data with
    | .error e =>
      { state := uploads,
        events := [mkEvent .fetch_start, mkEvent .fetch_complete,
                   mkEvent .fetch_complete],
        alerts := [], requests := [req], checksStarted := [], timers := [],
        outcome := .error e }
    | .ok _ =>
      let index := jsFindIndex (fun u => u == upload) uploads
      let uploads1 := if index > -1 then uploads.eraseIdx index.toNat else uploads
      { state := uploads1,
        events := [mkEvent .fetch_start, mkEvent .fetch_complete,
                   mkEvent .render_uploads],
        alerts := [], requests := [req], checksStarted := [], timers := [],
        outcome := .ok () }

/-- `UploadURLService.is_upload_in_progress(upload)`. -/
def is_upload_in_progress (upload : Upload) : Bool :=
  upload.status == "IN_PROGRESS"

/-- `UploadURLService.is_upload_complete(upload)`. -/
def is_upload_complete (upload : Upload) : Bool :=
  upload.status == "COMPLETE"

/-- `UploadURLService.has_upload_failed(upload)`. -/
def has_upload_failed (upload : Upload) : Bool :=
  upload.status == "FAILED"

end UploadURLService

/-- Result of `UploadURL.handleUploadButtonClick` in the upload view: the
alerts raised and the argument `upload_url` was invoked with, if it was. -/
structure ClickResult where
  alerts : List String
  upload_call : Option String
deriving DecidableEq, Repr

/-- `UploadURL.handleUploadButtonClick` from upload_url.js: refuse an empty
input value with an alert and no service call, otherwise call
`upload_url` on the input value. -/
def handleUploadButtonClick (inputValue : String) : ClickResult :=
  if inputValue == "" then
    { alerts := ["URL cannot be empty"], upload_call := none }
  else
    { alerts := [], upload_call := some inputValue }

/-- A chat message as held in `this.chatMessages`: the optimistic entry
`\x7b text, message_creator_type: "HUMAN", created: null \x7d` and the decoded
server reply both have this shape (`created` is `none` for `null`). -/
structure ChatMessage where
  text : String
  message_creator_type : String
  created : Option String
deriving DecidableEq, Repr

namespace ChatService

def INFERENCE_ENDPOINT : String := "/api/v1/inference"

/-- `this.chatMessages[this.chatMessages.length - 1].created = v`: overwrite
the `created` field of the last message (the source never runs this on an
empty log, where JS would throw; on an empty list this returns it). -/
def setLastCreated (msgs : List ChatMessage) (v : String) : List ChatMessage :=
  match msgs.getLast? with
  | some m => msgs.set (msgs.length - 1) { m with created := some v }
  | none => msgs

/-- `ChatService.postMessage(user_query)`: push the optimistic human message,
dispatch `userport_post_message_start`, POST the query; on a decoded body set
the last message's `created` to `"Test"`, push the server body and dispatch
`userport_post_message_end`; on any error pop the last message, dispatch
`userport_post_message_end` and rethrow.  No `checkErrorCode` call here. -/
def postMessage (chatMessages : List ChatMessage) (user_query : String)
    (fr : FetchResult ChatMessage) : OpResult (List ChatMessage) :=
  let optimistic : ChatMessage :=
    { text := user_query, message_creator_type := "HUMAN", created := none }
  let msgs1 := chatMessages ++ [optimistic]
  let req : RequestDesc :=
    { method := "POST", path := INFERENCE_ENDPOINT, payload := some user_query }
  match fr with
  | .body data =>
    { state := (setLastCreated msgs1 "Test") ++ [data],
      events := [mkEvent .userport_post_message_start,
                 mkEvent .userport_post_message_end],
      alerts := [], requests := [req], checksStarted := [], timers := [],
      outcome := .ok () }
  | .nonJSON status =>
    { state := msgs1.dropLast,
      events := [mkEvent .userport_post_message_start,
                 mkEvent .userport_post_message_end],
      alerts := [], requests := [req], checksStarted := [], timers := [],
      outcome := .error (.serverError status) }
  | .reject e =>
    { state := msgs1.dropLast,
      events := [mkEvent .userport_post_message_start,
                 mkEvent .userport_post_message_end],
      alerts := [], requests := [req], checksStarted := [], timers := [],
      outcome := .error e }

end ChatService

/-- The value of a `key` field in an API-key response body: either a JS
string (the empty string means "no key") or a key object carrying a
`key_prefix`. -/
inductive KeyValue where
  | str (s : String)
  | obj ( key_prefix : String)
deriving DecidableEq, Repr

/-- JS `String.prototype.repeat`. -/
def jsStringRepeat (s : String) : Nat → String
  | 0 => ""
  | n + 1 => s ++ jsStringRepeat s n

/-- `APIKeyView.keyObfuscatedFormat(apiKey)`: the key's `key_prefix` followed
by `"*".repeat(11)`.  On a string value, JS reads the absent `key_prefix`
property as `undefined`, which the template renders as the text
`undefined`. -/
def keyObfuscatedFormat (apiKey : KeyValue) : String :=
  let repeatChar := "*"
  match apiKey with
  | .obj kp => kp ++ jsStringRepeat repeatChar 11
  | .str _ => "undefined" ++ jsStringRepeat repeatChar 11

/-- The state an `APIKeyService` instance owns: its `api_key` field
(`null` at construction, modelled as `none`). -/
structure APIKeyState where
  api_key : Option KeyValue
deriving DecidableEq, Repr

/-- Body of a fetch-key response: envelope plus the optional `key` field. -/
structure APIKeyFetchBody where
  error_code : Option String
  message : Option String
  key : Option KeyValue
deriving DecidableEq, Repr

/-- Body of a create-key response: envelope plus the optional `key` and
`raw_value` fields. -/
structure APIKeyCreateBody where
  error_code : Option String
  message : Option String
  key : Option KeyValue
  raw_value : Option String
deriving DecidableEq, Repr

namespace APIKeyService

def API_KEY_ENDPOINT : String := "/api/v1/api-key"

/-- `APIKeyService.get_api_key()`: return `this.api_key`. -/
def get_api_key (s : APIKeyState) : Option KeyValue := s.api_key

/-- `APIKeyService.fetch_api_key()`: dispatch `api_key_fetch_start`, GET the
key; on a decoded body dispatch `api_key_fetch_complete`, run
`checkErrorCode`, require the `key` field; an empty-string key means no key
exists, so dispatch `api_key_render_creation` and return; otherwise store the
key in `this.api_key` and dispatch `api_key_render_existing`.  Every error
lands in the catch handler, which dispatches `api_key_fetch_complete` and
rethrows. -/
def fetch_api_key (st : APIKeyState) (fr : FetchResult APIKeyFetchBody) :
    OpResult APIKeyState :=
  let req : RequestDesc := { method := "GET", path := API_KEY_ENDPOINT, payload := none }
  match fr with
  | .reject e =>
    { state := st,
      events := [mkEvent .api_key_fetch_start, mkEvent .api_key_fetch_complete],
      alerts := [], requests := [req], checksStarted := [], timers := [],
      outcome := .error e }
  | .nonJSON status =>
    { state := st,
      events := [mkEvent .api_key_fetch_start, mkEvent .api_key_fetch_complete],
      alerts := [], requests := [req], checksStarted := [], timers := [],
      outcome := .error (.serverError status) }
  | .body data =>
    match checkErrorCode { error_code := data.error_code, message := data.message } with
    | .error e =>
      { state := st,
        events := [mkEvent .api_key_fetch_start, mkEvent .api_key_fetch_complete,
                   mkEvent .api_key_fetch_complete],
        alerts := [], requests := [req], checksStarted := [], timers := [],
        outcome := .error e }
    | .ok _ =>
      match data.key with
      | none =>
        { state := st,
          events := [mkEvent .api_key_fetch_start, mkEvent .api_key_fetch_complete,
                     mkEvent .api_key_fetch_complete],
          alerts := [], requests := [req], checksStarted := [], timers := [],
          outcome := .error (.invalidFormat "Invalid API Key response format") }
      | some k =>
        if k == KeyValue.str "" then
          { state := st,
            events := [mkEvent .api_key_fetch_start, mkEvent .api_key_fetch_complete,
                       mkEvent .api_key_render_creation],
            alerts := [], requests := [req], checksStarted := [], timers := [],
            outcome := .ok () }
        else
          { state := { api_key := some k },
            events := [mkEvent .api_key_fetch_start, mkEvent .api_key_fetch_complete,
                       mkEvent .api_key_render_existing],
            alerts := [], requests := [req], checksStarted := [], timers := [],
            outcome := .ok () }

/-- `APIKeyService.create_api_key()`: dispatch `api_key_fetch_start`, POST;
on a decoded body dispatch `api_key_fetch_complete`, run `checkErrorCode`,
require both `key` and `raw_value`, alert the one-time raw value, store only
`data.key` in `this.api_key` and dispatch `api_key_render_existing`.  Every
error lands in the catch handler, which dispatches `api_key_fetch_complete`
and rethrows. -/
def create_api_key (st : APIKeyState) (fr : FetchResult APIKeyCreateBody) :
    OpResult APIKeyState :=
  let req : RequestDesc :=
    { method := "POST", path := API_KEY_ENDPOINT, payload := none }
  match fr with
  | .reject e =>
    { state := st,
      events := [mkEvent .api_key_fetch_start, mkEvent .api_key_fetch_complete],
      alerts := [], requests := [req], checksStarted := [], timers := [],
      outcome := .error e }
  | .nonJSON status =>
    { state := st,
      events := [mkEvent .api_key_fetch_start, mkEvent .api_key_fetch_complete],
      alerts := [], requests := [req], checksStarted := [], timers := [],
      outcome := .error (.serverError status) }
  | .body data =>
    match checkErrorCode { error_code := data.error_code, message := data.message } with
    | .error e =>
      { state := st,
        events := [mkEvent .api_key_fetch_start, mkEvent .api_key_fetch_complete,
                   mkEvent .api_key_fetch_complete],
        alerts := [], requests := [req], checksStarted := [], timers := [],
        outcome := .error e }
    | .ok _ =>
      match data.key, data.raw_value with
      | some k, some rv =>
        { state := { api_key := some k },
          events := [mkEvent .api_key_fetch_start, mkEvent .api_key_fetch_complete,
                     mkEvent .api_key_render_existing],
          alerts := [s!"This is your API key: {rv}\n\nPlease save this somewhere safe, you will not be shown it again."],
          requests := [req], checksStarted := [], timers := [],
          outcome := .ok () }
      | _, _ =>
        { state := st,
          events := [mkEvent .api_key_fetch_start, mkEvent .api_key_fetch_complete,
                     mkEvent .api_key_fetch_complete],
          alerts := [], requests := [req], checksStarted := [], timers := [],
          outcome := .error (.invalidFormat "Invalid API Key response format") }

/-- `APIKeyService.delete_api_key()`: dispatch `api_key_fetch_start`, DELETE;
on a decoded body dispatch `api_key_fetch_complete`, run `checkErrorCode`,
and dispatch `api_key_render_creation`.  The method never assigns
`this.api_key`, so the stored key is left as it was.  Every error lands in
the catch handler, which dispatches `api_key_fetch_complete` and rethrows. -/
def delete_api_key (st : APIKeyState) (fr : FetchResult ErrorEnvelope) :
    OpResult APIKeyState :=
  let req : RequestDesc :=
    { method := "DELETE", path := API_KEY_ENDPOINT, payload := none }
  match fr with
  | .reject e =>
    { state := st,
      events := [mkEvent .api_key_fetch_start, mkEvent .api_key_fetch_complete],
      alerts := [], requests := [req], checksStarted := [], timers := [],
      outcome := .error e }
  | .nonJSON status =>
    { state := st,
      events := [mkEvent .api_key_fetch_start, mkEvent .api_key_fetch_complete],
      alerts := [], requests := [req], checksStarted := [], timers := [],
      outcome := .error (.serverError status) }
  | .body data =>
    match checkErrorCode data with
    | .error e =>
      { state := st,
        events := [mkEvent .api_key_fetch_start, mkEvent .api_key_fetch_complete,
                   mkEvent .api_key_fetch_complete],
        alerts := [], requests := [req], checksStarted := [], timers := [],
        outcome := .error e }
    | .ok _ =>
      { state := st,
        events := [mkEvent .api_key_fetch_start, mkEvent .api_key_fetch_complete,
                   mkEvent .api_key_render_creation],
        alerts := [], requests := [req], checksStarted := [], timers := [],
        outcome := .ok () }

end APIKeyService

/-! ### Helper lemmas -/

/-- When some element satisfies the predicate, JS `findIndex` agrees with
`List.findIdx`, and that index is in bounds. -/
theorem jsFindIndex_of_exists {α : Type} (p : α → Bool) (l : List α)
    (h : ∃ x ∈ l, p x = true) :
    jsFindIndex p l = (l.findIdx p : Int) ∧ l.findIdx p < l.length := by
  have hlt := List.findIdx_lt_length_of_exists h
  have heq := List.findIdx_eq_findIdx? p l
  refine ⟨?_, hlt⟩
  cases hfi : l.findIdx? p with
  | none =>
    rw [hfi] at heq
    simp only [] at heq
    omega
  | some i =>
    rw [hfi] at heq
    simp [jsFindIndex, hfi, heq]

/-- Writing the `created` field of the last entry of a log that ends in `m`
rewrites exactly that entry. -/
theorem setLastCreated_concat (l : List ChatMessage) (m : ChatMessage) (v : String) :
    ChatService.setLastCreated (l ++ [m]) v = l ++ [{ m with created := some v }] := by
  unfold ChatService.setLastCreated
  rw [List.getLast?_concat]
  simp [List.set_append]

/-! ### The claims -/

/-- C1: error normalization — a decoded body carrying both an `error_code`
and a `message` field makes `checkErrorCode` raise a domain error carrying
both values, and an operation that decodes such a body abandons its success
path (`upload_url` leaves the collection unchanged and rejects); a body with
`error_code` but no `message` raises nothing and processing continues as
success (the upload is pushed and the operation resolves). -/
theorem checkErrorCode_error_normalization (c m : String) (s : List Upload)
    (url0 : String) (u : Upload) :
    checkErrorCode { error_code := some c, message := some m }
      = .error (.domainError c m)
    ∧ checkErrorCode { error_code := some c, message := none } = .ok ()
    ∧ (UploadURLService.upload_url s url0
        (.body { u with error_code := some c, message := some m })).state = s
    ∧ (UploadURLService.upload_url s url0
        (.body { u with error_code := some c, message := some m })).outcome
      = .error (.domainError c m)
    ∧ (UploadURLService.upload_url s url0
        (.body { u with error_code := some c, message := none })).state
      = s ++ [{ u with error_code := some c, message := none }]
    ∧ (UploadURLService.upload_url s url0
        (.body { u with error_code := some c, message := none })).outcome
      = .ok () :=
  ⟨rfl, rfl, rfl, rfl, rfl, rfl⟩

/-- C2 counterexample: for `postMessage [] "hi"` with the network rejecting,
the two dispatched events are the bare start and end events and neither
carries any payload — so no send-completed event carrying the error is
emitted (the source dispatches `new Event("userport_post_message_end")`,
which has no payload; the error only travels as the promise rejection). -/
theorem postMessage_end_event_carries_no_error :
    ((ChatService.postMessage [] "hi" (.reject (.other "boom"))).events.map
        Event.payload) = [none, none]
    ∧ (ChatService.postMessage [] "hi" (.reject (.other "boom"))).events
      = [mkEvent .userport_post_message_start,
         mkEvent .userport_post_message_end] :=
  ⟨rfl, rfl⟩

/-- C2 (amended): for every chat send whose network request rejects, the
optimistic human entry is removed — the message log equals its pre-send state
and its length returns to the pre-call value — a send-completed event is
dispatched (it carries no payload), and the error is surfaced as the
rejection of the returned promise; a non-JSON response behaves the same with
a server error carrying the HTTP status. -/
theorem postMessage_network_reject_rollback (msgs : List ChatMessage)
    (q : String) (e : JSError) (status : Nat) :
    (ChatService.postMessage msgs q (.reject e)).state = msgs
    ∧ (ChatService.postMessage msgs q (.reject e)).state.length = msgs.length
    ∧ (ChatService.postMessage msgs q (.reject e)).events
      = [mkEvent .userport_post_message_start,
         mkEvent .userport_post_message_end]
    ∧ (ChatService.postMessage msgs q (.reject e)).outcome = .error e
    ∧ (ChatService.postMessage msgs q (.nonJSON status)).state = msgs
    ∧ (ChatService.postMessage msgs q (.nonJSON status)).outcome
      = .error (.serverError status) := by
  refine ⟨?_, ?_, rfl, rfl, ?_, rfl⟩ <;>
    simp [ChatService.postMessage, List.dropLast_concat]

/-- C5 counterexample: with empty input the services still reach the network
and still mutate the collection — `upload_url [] ""` issues one POST (there
is no validation and no `ValidationError` anywhere in the service), as does
`postMessage [] ""`, and a successful response to the empty-URL upload is
pushed into the collection. -/
theorem empty_input_request_issued :
    (UploadURLService.upload_url [] "" (.reject (.other "offline"))).requests.length = 1
    ∧ (ChatService.postMessage [] "" (.reject (.other "offline"))).requests.length = 1
    ∧ (UploadURLService.upload_url [] ""
        (.body { error_code := none, message := none, id := 1, url := "",
                 status := "IN_PROGRESS" })).state ≠ [] :=
  ⟨rfl, rfl, by decide⟩

/-- C5 (amended): the services perform no input validation — `upload_url` and
`postMessage` issue their network request even for empty input, with no
validation error; the empty-input check lives in the upload view instead,
whose click handler refuses an empty input value with an alert and never
invokes the service, and the chat path has no empty-input check at all. -/
theorem validation_in_view_not_service (s : List Upload)
    (msgs : List ChatMessage) (frU : FetchResult Upload)
    (frC : FetchResult ChatMessage) (v : String) (hv : v ≠ "") :
    (UploadURLService.upload_url s "" frU).requests
      = [{ method := "POST", path := UploadURLService.URL_ENDPOINT,
           payload := some "" }]
    ∧ (ChatService.postMessage msgs "" frC).requests
      = [{ method := "POST", path := ChatService.INFERENCE_ENDPOINT,
           payload := some "" }]
    ∧ handleUploadButtonClick ""
      = { alerts := ["URL cannot be empty"], upload_call := none }
    ∧ handleUploadButtonClick v = { alerts := [], upload_call := some v } := by
  refine ⟨?_, ?_, rfl, ?_⟩
  · rcases frU with b | st | e
    · cases h : checkErrorCode b.envelope <;>
        simp [UploadURLService.upload_url, h]
    · rfl
    · rfl
  · rcases frC with b | st | e <;> rfl
  · have hbeq : (v == "") = false := beq_eq_false_iff_ne.mpr hv
    simp [handleUploadButtonClick, hbeq]

/-- C5 witness: a non-empty input value reaches the service unchanged. -/
theorem validation_in_view_not_service_witness :
    handleUploadButtonClick "https://example.com"
      = { alerts := [], upload_call := some "https://example.com" } :=
  (validation_in_view_not_service [] [] (.reject (.other "offline"))
    (.reject (.other "offline")) "https://example.com" (by decide)).2.2.2

/-- C6 (the code at the failing input): a successful send keeps the
optimistic human record — its `created` field is set to `"Test"` — and
appends the server reply after it; the optimistic record is not replaced by
the reply, contrary to the source's own comment that the pushed human
message "should be replaced by server message instead". -/
theorem postMessage_success_appends_reply :
    (ChatService.postMessage [] "hi"
      (.body { text := "ans", message_creator_type := "BOT",
               created := some "Now" })).state
      = [{ text := "hi", message_creator_type := "HUMAN", created := some "Test" },
         { text := "ans", message_creator_type := "BOT", created := some "Now" }]
    ∧ (ChatService.postMessage [] "hi"
        (.body { text := "ans", message_creator_type := "BOT",
                 created := some "Now" })).state.length = 2 :=
  ⟨rfl, rfl⟩

/-- C8: the create-key scenario — from the ABSENT state (`api_key = none`), a
response `key = obj "ab12"`, `raw_value = "secret123"` moves the state to
PRESENT storing only the key object, the displayed value is the prefix
followed by exactly 11 asterisks, the retained state is the same whatever the
raw value was (so `raw_value` is never retained after the initial alert
display), the existing-key notification is dispatched and the operation
resolves. -/
theorem create_api_key_scenario (rv : String) :
    APIKeyService.get_api_key { api_key := none } = none
    ∧ (APIKeyService.create_api_key { api_key := none }
        (.body { error_code := none, message := none, key := some (.obj "ab12"),
                 raw_value := some "secret123" })).state
      = { api_key := some (.obj "ab12") }
    ∧ APIKeyService.get_api_key (APIKeyService.create_api_key { api_key := none }
        (.body { error_code := none, message := none, key := some (.obj "ab12"),
                 raw_value := some "secret123" })).state = some (.obj "ab12")
    ∧ keyObfuscatedFormat (.obj "ab12") = "ab12***********"
    ∧ (APIKeyService.create_api_key { api_key := none }
        (.body { error_code := none, message := none, key := some (.obj "ab12"),
                 raw_value := some rv })).state
      = (APIKeyService.create_api_key { api_key := none }
        (.body { error_code := none, message := none, key := some (.obj "ab12"),
                 raw_value := some "secret123" })).state
    ∧ mkEvent .api_key_render_existing ∈ (APIKeyService.create_api_key
        { api_key := none }
        (.body { error_code := none, message := none, key := some (.obj "ab12"),
                 raw_value := some "secret123" })).events
    ∧ (APIKeyService.create_api_key { api_key := none }
        (.body { error_code := none, message := none, key := some (.obj "ab12"),
                 raw_value := some "secret123" })).outcome = .ok () :=
  ⟨rfl, rfl, rfl, by decide, rfl, by decide, rfl⟩

/-- C9 counterexample: after a successful delete from the PRESENT state the
stored key is not cleared — `get_api_key` still returns the previous key
object, not `null` (the source's `delete_api_key` never assigns
`this.api_key`). -/
theorem delete_api_key_retains_stored_key :
    APIKeyService.get_api_key (APIKeyService.delete_api_key
        { api_key := some (.obj "ab12") }
        (.body { error_code := none, message := none })).state
      = some (.obj "ab12")
    ∧ APIKeyService.get_api_key (APIKeyService.delete_api_key
        { api_key := some (.obj "ab12") }
        (.body { error_code := none, message := none })).state ≠ none :=
  ⟨rfl, by decide⟩

/-- C9 (amended): a successful delete dispatches the creation notification
(the view re-renders the ABSENT state) and the operation resolves, but the
stored key field is left untouched: the state is unchanged and `get_api_key`
returns whatever it returned before, not `null`. -/
theorem delete_api_key_success_renders_creation (st : APIKeyState) :
    (APIKeyService.delete_api_key st
        (.body { error_code := none, message := none })).events
      = [mkEvent .api_key_fetch_start, mkEvent .api_key_fetch_complete,
         mkEvent .api_key_render_creation]
    ∧ (APIKeyService.delete_api_key st
        (.body { error_code := none, message := none })).state = st
    ∧ APIKeyService.get_api_key (APIKeyService.delete_api_key st
        (.body { error_code := none, message := none })).state
      = APIKeyService.get_api_key st
    ∧ (APIKeyService.delete_api_key st
        (.body { error_code := none, message := none })).outcome = .ok () :=
  ⟨rfl, rfl, rfl, rfl⟩

/-- C3: a successful LIST response carrying the three records A, B, C (with
the server-guaranteed pairwise-distinct ids) makes `list_urls` replace the
local collection wholesale with exactly those records — length 3, ids
`A.id, B.id, C.id` with no duplicate — start a status check for every record
(in particular for every record in a non-terminal status), and dispatch the
`render_uploads` (dataChanged) notification. -/
theorem list_urls_wholesale_replacement (s : List Upload) (A B C : Upload)
    (hAB : A.id ≠ B.id) (hAC : A.id ≠ C.id) (hBC : B.id ≠ C.id) :
    (UploadURLService.list_urls s
        (.body { error_code := none, message := none,
                 uploads := some [A, B, C] })).state = [A, B, C]
    ∧ (UploadURLService.list_urls s
        (.body { error_code := none, message := none,
                 uploads := some [A, B, C] })).state.length = 3
    ∧ ((UploadURLService.list_urls s
        (.body { error_code := none, message := none,
                 uploads := some [A, B, C] })).state.map fun u => u.id)
      = [A.id, B.id, C.id]
    ∧ ((UploadURLService.list_urls s
        (.body { error_code := none, message := none,
                 uploads := some [A, B, C] })).state.map fun u => u.id).Nodup
    ∧ (UploadURLService.list_urls s
        (.body { error_code := none, message := none,
                 uploads := some [A, B, C] })).checksStarted
      = [A.id, B.id, C.id]
    ∧ (∀ u ∈ (UploadURLService.list_urls s
        (.body { error_code := none, message := none,
                 uploads := some [A, B, C] })).state,
        UploadURLService.is_upload_in_progress u = true →
          u.id ∈ (UploadURLService.list_urls s
            (.body { error_code := none, message := none,
                     uploads := some [A, B, C] })).checksStarted)
    ∧ mkEvent .render_uploads ∈ (UploadURLService.list_urls s
        (.body { error_code := none, message := none,
                 uploads := some [A, B, C] })).events
    ∧ (UploadURLService.list_urls s
        (.body { error_code := none, message := none,
                 uploads := some [A, B, C] })).outcome = .ok () := by
  have hst : (UploadURLService.list_urls s
      (.body { error_code := none, message := none,
               uploads := some [A, B, C] })).state = [A, B, C] := rfl
  have hcs : (UploadURLService.list_urls s
      (.body { error_code := none, message := none,
               uploads := some [A, B, C] })).checksStarted
    = [A.id, B.id, C.id] := rfl
  have hev : (UploadURLService.list_urls s
      (.body { error_code := none, message := none,
               uploads := some [A, B, C] })).events
    = [mkEvent .fetch_start, mkEvent .fetch_complete,
       mkEvent .render_uploads] := rfl
  refine ⟨rfl, rfl, rfl, ?_, rfl, ?_, ?_, rfl⟩
  · rw [hst]
    simp [List.nodup_cons, hAB, hAC, hBC]
  · intro u hu _
    rw [hst] at hu
    rw [hcs]
    simp only [List.mem_cons, List.not_mem_nil, or_false] at hu
    rcases hu with h | h | h <;> simp [h]
  · rw [hev]
    simp

/-- C3 witness: a concrete LIST round trip with three records of distinct
ids, one of them still in progress. -/
theorem list_urls_wholesale_replacement_witness :
    (UploadURLService.list_urls []
        (.body { error_code := none, message := none,
                 uploads := some
                   [{ error_code := none, message := none, id := 1,
                      url := "https://a.example", status := "IN_PROGRESS" },
                    { error_code := none, message := none, id := 2,
                      url := "https://b.example", status := "COMPLETE" },
                    { error_code := none, message := none, id := 3,
                      url := "https://c.example", status := "FAILED" }] })).state
      = [{ error_code := none, message := none, id := 1,
           url := "https://a.example", status := "IN_PROGRESS" },
         { error_code := none, message := none, id := 2,
           url := "https://b.example", status := "COMPLETE" },
         { error_code := none, message := none, id := 3,
           url := "https://c.example", status := "FAILED" }] :=
  (list_urls_wholesale_replacement []
    { error_code := none, message := none, id := 1,
      url := "https://a.example", status := "IN_PROGRESS" }
    { error_code := none, message := none, id := 2,
      url := "https://b.example", status := "COMPLETE" }
    { error_code := none, message := none, id := 3,
      url := "https://c.example", status := "FAILED" }
    (by decide) (by decide) (by decide)).1

/-- C4: a poll step whose status query decodes a terminal-status record whose
id is present in the canonical collection replaces the record at the first
index carrying that id, in place: the collection length is unchanged, every
other position holds exactly what it held before, the `render_uploads`
(dataChanged) notification is dispatched, and nothing further is scheduled
(no timer, no immediate check). -/
theorem check_status_terminal_in_place_update (s : List Upload)
    (upload_id : Nat) (u : Upload) (henv : u.error_code = none)
    (hterm : UploadURLService.is_upload_complete u = true
      ∨ UploadURLService.has_upload_failed u = true)
    (hmem : ∃ v ∈ s, v.id = u.id) :
    (UploadURLService.check_status s upload_id (.body u)).state
      = s.set (s.findIdx fun e => e.id == u.id) u
    ∧ (UploadURLService.check_status s upload_id (.body u)).state.length
      = s.length
    ∧ (∀ k, k ≠ (s.findIdx fun e => e.id == u.id) →
        (UploadURLService.check_status s upload_id (.body u)).state[k]? = s[k]?)
    ∧ (UploadURLService.check_status s upload_id
        (.body u)).state[(s.findIdx fun e => e.id == u.id)]? = some u
    ∧ (UploadURLService.check_status s upload_id (.body u)).events
      = [mkEvent .render_uploads]
    ∧ (UploadURLService.check_status s upload_id (.body u)).timers = []
    ∧ (UploadURLService.check_status s upload_id (.body u)).checksStarted = []
    ∧ (UploadURLService.check_status s upload_id (.body u)).outcome = .ok () := by
  have hok : checkErrorCode u.envelope = .ok () := by
    simp [checkErrorCode, Upload.envelope, henv]
  have hbne : (u.status != "IN_PROGRESS") = true := by
    rcases hterm with h | h <;>
      simp only [UploadURLService.is_upload_complete,
        UploadURLService.has_upload_failed, beq_iff_eq] at h <;>
      simp [h]
  have hex : ∃ x ∈ s, (fun e => e.id == u.id) x = true := by
    obtain ⟨v, hv, hid⟩ := hmem
    exact ⟨v, hv, by simp [hid]⟩
  obtain ⟨hjfi, hlt⟩ := jsFindIndex_of_exists _ s hex
  have hne : ((s.findIdx fun e => e.id == u.id : Int) == -1) = false := by
    rw [beq_eq_false_iff_ne]
    omega
  have hred : UploadURLService.check_status s upload_id (.body u)
      = { state := s.set (s.findIdx fun e => e.id == u.id) u,
          events := [mkEvent .render_uploads],
          alerts := [],
          requests :=
            [{ method := "GET",
               path := s!"{UploadURLService.URL_ENDPOINT}?id={upload_id}",
               payload := none }],
          checksStarted := [], timers := [], outcome := .ok () } := by
    simp only [UploadURLService.check_status, hok, hbne, hjfi, hne,
      if_true, if_false, Bool.false_eq_true, Int.toNat_natCast]
  refine ⟨by rw [hred], by rw [hred]; exact List.length_set s _ u, ?_, ?_,
    by rw [hred], by rw [hred], by rw [hred], by rw [hred]⟩
  · intro k hk
    rw [hred]
    exact List.getElem?_set_ne (Ne.symm hk)
  · rw [hred]
    exact List.getElem?_set_self hlt

/-- C4 witness: a one-record collection converging to COMPLETE. -/
theorem check_status_terminal_in_place_update_witness :
    (UploadURLService.check_status
        [{ error_code := none, message := none, id := 5,
           url := "https://a.example", status := "IN_PROGRESS" }] 5
        (.body { error_code := none, message := none, id := 5,
                 url := "https://a.example", status := "COMPLETE" })).events
      = [mkEvent .render_uploads] :=
  (check_status_terminal_in_place_update
    [{ error_code := none, message := none, id := 5,
       url := "https://a.example", status := "IN_PROGRESS" }] 5
    { error_code := none, message := none, id := 5,
      url := "https://a.example", status := "COMPLETE" }
    rfl (Or.inl (by decide)) (by decide)).2.2.2.2.1

/-- C7 counterexample: `check_status` is a network operation of the service
yet dispatches no fetch events at all (an in-progress poll step dispatches
nothing), and a domain-error body makes `upload_url` dispatch `fetch_complete`
twice — both contradict "exactly one fetch-start and exactly one fetch-end
around every network operation". -/
theorem fetch_bracket_violations :
    (UploadURLService.check_status [] 7
        (.body { error_code := none, message := none, id := 7,
                 url := "https://a.example", status := "IN_PROGRESS" })).events
      = []
    ∧ countEv .fetch_start (UploadURLService.check_status [] 7
        (.body { error_code := none, message := none, id := 7,
                 url := "https://a.example", status := "IN_PROGRESS" })).events
      = 0
    ∧ countEv .fetch_complete (UploadURLService.upload_url [] "https://a.example"
        (.body { error_code := some "E1", message := some "bad", id := 1,
                 url := "https://a.example", status := "IN_PROGRESS" })).events
      = 2 :=
  ⟨rfl, rfl, rfl⟩

/-- C7 (amended): `upload_url`, `list_urls` and `delete_url` each dispatch
exactly one `fetch_start`, as their first event, before the request; they
dispatch exactly one `fetch_complete` when the operation resolves or fails at
the transport/decoding stage, but two `fetch_complete` events when an error
is raised after the body was decoded (a domain-error envelope, or the missing
`uploads` field in `list_urls`); `check_status` dispatches no `fetch_start`
and no `fetch_complete` at all. -/
theorem fetch_bracket_amended (s : List Upload) (url0 : String) (du : Upload)
    (frU frS : FetchResult Upload) (frL : FetchResult ListBody)
    (frD : FetchResult ErrorEnvelope) (id0 : Nat) :
    (UploadURLService.upload_url s url0 frU).events.head?
      = some (mkEvent .fetch_start)
    ∧ countEv .fetch_start (UploadURLService.upload_url s url0 frU).events = 1
    ∧ countEv .fetch_complete (UploadURLService.upload_url s url0 frU).events
      = (match frU with
         | .body b => (match checkErrorCode b.envelope with
                       | .ok _ => 1
                       | .error _ => 2)
         | _ => 1)
    ∧ (UploadURLService.list_urls s frL).events.head?
      = some (mkEvent .fetch_start)
    ∧ countEv .fetch_start (UploadURLService.list_urls s frL).events = 1
    ∧ countEv .fetch_complete (UploadURLService.list_urls s frL).events
      = (match frL with
         | .body b => (match checkErrorCode b.envelope with
                       | .ok _ => (match b.uploads with
                                   | some _ => 1
                                   | none => 2)
                       | .error _ => 2)
         | _ => 1)
    ∧ (UploadURLService.delete_url s du frD).events.head?
      = some (mkEvent .fetch_start)
    ∧ countEv .fetch_start (UploadURLService.delete_url s du frD).events = 1
    ∧ countEv .fetch_complete (UploadURLService.delete_url s du frD).events
      = (match frD with
         | .body b => (match checkErrorCode b with
                       | .ok _ => 1
                       | .error _ => 2)
         | _ => 1)
    ∧ countEv .fetch_start (UploadURLService.check_status s id0 frS).events = 0
    ∧ countEv .fetch_complete
        (UploadURLService.check_status s id0 frS).events = 0 := by
  refine ⟨?_, ?_, ?_, ?_, ?_, ?_, ?_, ?_, ?_, ?_, ?_⟩
  all_goals first
  | · rcases frU with b | st | e
      · cases h : checkErrorCode b.envelope <;>
          simp [UploadURLService.upload_url, h, countEv, mkEvent]
      · simp [UploadURLService.upload_url, countEv, mkEvent]
      · simp [UploadURLService.upload_url, countEv, mkEvent]
  | · rcases frL with b | st | e
      · cases h : checkErrorCode b.envelope
        · simp [UploadURLService.list_urls, h, countEv, mkEvent]
        · cases hb : b.uploads <;>
            simp [UploadURLService.list_urls, h, hb, countEv, mkEvent]
      · simp [UploadURLService.list_urls, countEv, mkEvent]
      · simp [UploadURLService.list_urls, countEv, mkEvent]
  | · rcases frD with b | st | e
      · cases h : checkErrorCode b <;>
          simp [UploadURLService.delete_url, h, countEv, mkEvent]
      · simp [UploadURLService.delete_url, countEv, mkEvent]
      · simp [UploadURLService.delete_url, countEv, mkEvent]
  | · rcases frS with b | st | e
      · cases h : checkErrorCode b.envelope
        · simp [UploadURLService.check_status, h, countEv, mkEvent]
        · by_cases hs : (b.status != "IN_PROGRESS") = true
          · by_cases hi : (jsFindIndex (fun e => e.id == b.id) s == -1) = true
            · simp [UploadURLService.check_status, h, hs, hi, countEv, mkEvent]
            · simp [UploadURLService.check_status, h, hs, hi, countEv, mkEvent]
          · simp [UploadURLService.check_status, h, hs, countEv, mkEvent]
      · simp [UploadURLService.check_status, countEv, mkEvent]
      · simp [UploadURLService.check_status, countEv, mkEvent]

/-- C10: `fetch_api_key` on a successful JSON body — a body without a `key`
field rejects with the invalid-format error and leaves the stored key
unchanged; a body whose `key` is the empty string leaves the stored key
unchanged (so still `null` from the initial state) and dispatches the
creation notification; any other `key` value is stored and the existing-key
notification is dispatched. -/
theorem fetch_api_key_branches (st : APIKeyState) (k : KeyValue)
    (hk : k ≠ .str "") :
    (APIKeyService.fetch_api_key st
        (.body { error_code := none, message := none, key := none })).outcome
      = .error (.invalidFormat "Invalid API Key response format")
    ∧ (APIKeyService.fetch_api_key st
        (.body { error_code := none, message := none, key := none })).state = st
    ∧ (APIKeyService.fetch_api_key st
        (.body { error_code := none, message := none,
                 key := some (.str "") })).state = st
    ∧ APIKeyService.get_api_key (APIKeyService.fetch_api_key st
        (.body { error_code := none, message := none,
                 key := some (.str "") })).state = APIKeyService.get_api_key st
    ∧ mkEvent .api_key_render_creation ∈ (APIKeyService.fetch_api_key st
        (.body { error_code := none, message := none,
                 key := some (.str "") })).events
    ∧ (APIKeyService.fetch_api_key st
        (.body { error_code := none, message := none,
                 key := some (.str "") })).outcome = .ok ()
    ∧ (APIKeyService.fetch_api_key st
        (.body { error_code := none, message := none, key := some k })).state
      = { api_key := some k }
    ∧ mkEvent .api_key_render_existing ∈ (APIKeyService.fetch_api_key st
        (.body { error_code := none, message := none, key := some k })).events
    ∧ (APIKeyService.fetch_api_key st
        (.body { error_code := none, message := none, key := some k })).outcome
      = .ok () := by
  have hbeq : (k == KeyValue.str "") = false := beq_eq_false_iff_ne.mpr hk
  have hevEmpty : (APIKeyService.fetch_api_key st
      (.body { error_code := none, message := none,
               key := some (.str "") })).events
    = [mkEvent .api_key_fetch_start, mkEvent .api_key_fetch_complete,
       mkEvent .api_key_render_creation] := rfl
  have hredK : APIKeyService.fetch_api_key st
      (.body { error_code := none, message := none, key := some k })
    = { state := { api_key := some k },
        events := [mkEvent .api_key_fetch_start, mkEvent .api_key_fetch_complete,
                   mkEvent .api_key_render_existing],
        alerts := [],
        requests :=
          [{ method := "GET", path := APIKeyService.API_KEY_ENDPOINT,
             payload := none }],
        checksStarted := [], timers := [], outcome := .ok () } := by
    simp only [APIKeyService.fetch_api_key, checkErrorCode, hbeq,
      Bool.false_eq_true, if_false]
  refine ⟨rfl, rfl, rfl, rfl, ?_, rfl, ?_, ?_, ?_⟩
  · rw [hevEmpty]
    simp
  · rw [hredK]
  · rw [hredK]
    simp
  · rw [hredK]

/-- C10 witness: a concrete key object is fetched and stored. -/
theorem fetch_api_key_branches_witness :
    (APIKeyService.fetch_api_key { api_key := none }
        (.body { error_code := none, message := none,
                 key := some (.obj "ab") })).state
      = { api_key := some (.obj "ab") } :=
  (fetch_api_key_branches { api_key := none } (.obj "ab")
    (by decide)).2.2.2.2.2.2.1

end Knobo
